import Mathlib

/-!
Verification of the datacontract conversion core: the SQL-DDL importer, the
ODCS v3 importer and exporter, and the object-storage credential checks.

The Python sources are shallowly embedded: Python dicts become ordered
association lists with replace-or-append insertion, optional attributes become
`Option`, raised exceptions become an explicit error type, and the external
sqlglot parser is modelled by the shape of the parse tree that the importer
consumes (the rendered type string produced by sqlglot's generator is carried
as data on the column).  Classes of this repository whose definitions are not
part of the analysed sources (the DataContractSpecification record types) are
modelled from the specification; their definitions say so in their doc
comments.
-/

/-- Python string helpers are modelled character-wise over `String.data` so
that every definition evaluates by kernel reduction. -/
def pyLower (s : String) : String :=
  String.mk (s.data.map Char.toLower)

/-- Model of Python `str.strip()`: removes leading and trailing whitespace. -/
def pyStrip (s : String) : String :=
  String.mk (((s.data.dropWhile Char.isWhitespace).reverse.dropWhile Char.isWhitespace).reverse)

/-- Model of Python `str.startswith(p)`. -/
def pyStartsWith (s p : String) : Bool :=
  p.data.isPrefixOf s.data

/-- Model of Python `str.isdigit()` for ASCII digits. -/
def pyIsDigit (s : String) : Bool :=
  s.data ≠ [] && s.data.all Char.isDigit

/-- Model of Python `int(s)` on a string of digits. -/
def digitsToNat (s : String) : Nat :=
  s.data.foldl (fun a c => a * 10 + (c.toNat - '0'.toNat)) 0

/-- Model of Python `str.upper()`. -/
def pyUpper (s : String) : String :=
  String.mk (s.data.map Char.toUpper)

/-- Ordered association list lookup (Python `dict.get`). -/
def lookupA {V : Type} (l : List (String × V)) (k : String) : Option V :=
  match l.find? (fun p => p.1 = k) with
  | some p => some p.2
  | none => none

/-- Ordered association list lookup with `Option String` keys (Python dicts
keyed by a possibly-`None` name). -/
def lookupO {V : Type} (l : List (Option String × V)) (k : Option String) : Option V :=
  match l.find? (fun p => p.1 = k) with
  | some p => some p.2
  | none => none

/-- Python `d[k] = v` on an ordered dict: replaces the value in place when the
key is present, otherwise appends the new binding. -/
def insertA {K V : Type} [DecidableEq K] (l : List (K × V)) (k : K) (v : V) : List (K × V) :=
  if l.any (fun p => p.1 = k) then l.map (fun p => if p.1 = k then (k, v) else p)
  else l ++ [(k, v)]

theorem insertA_fresh {K V : Type} [DecidableEq K] (l : List (K × V)) (k : K) (v : V)
    (h : ∀ p ∈ l, p.1 ≠ k) : insertA l k v = l ++ [(k, v)] := by
  unfold insertA
  rw [if_neg]
  simp only [List.any_eq_true, decide_eq_true_eq, not_exists, not_and]
  intro p hp
  exact h p hp

theorem mem_insertA {K V : Type} [DecidableEq K] (l : List (K × V)) (k : K) (v : V)
    (p : K × V) (h : p ∈ insertA l k v) : p ∈ l ∨ p = (k, v) := by
  unfold insertA at h
  by_cases hc : l.any (fun q => q.1 = k)
  · rw [if_pos hc] at h
    rcases List.mem_map.mp h with ⟨q, hq, hqe⟩
    by_cases hqk : q.1 = k
    · right; rw [if_pos hqk] at hqe; exact hqe.symm
    · left; rw [if_neg hqk] at hqe; exact hqe ▸ hq
  · rw [if_neg hc] at h
    rcases List.mem_append.mp h with h1 | h1
    · exact Or.inl h1
    · exact Or.inr (List.mem_singleton.mp h1)

/-! ## Errors

Python exceptions raised by the analysed code.  `dcException` models the
repository's structured `DataContractException` (its `name` and `reason`
fields); `typeError`, `attributeError` and `nameError` model the built-in
Python exceptions that some code paths actually raise. -/

inductive PyErr : Type where
  | dcException (name reason : String)
  | typeError
  | attributeError
  | nameError
  deriving DecidableEq, Repr

/-! ## SQL importer: the canonical type resolver (`map_type_from_sql`)

Source: `datacontract/imports/sql_importer.py`, `map_type_from_sql`.
The chain of `startswith` / equality tests is reproduced in source order on
the lowercased, stripped token. -/

/-- The `elif` chain of `map_type_from_sql` as an ordered first-match rule
table: one entry per branch, in source order, each pairing the branch's
condition on the normalized token with the branch's result. -/
def sqlTypeRules : List ((String → Bool) × String) :=
  [ (fun n => pyStartsWith n "varchar", "string")
  , (fun n => pyStartsWith n "char", "string")
  , (fun n => pyStartsWith n "string", "string")
  , (fun n => pyStartsWith n "nchar", "string")
  , (fun n => pyStartsWith n "text", "string")
  , (fun n => pyStartsWith n "nvarchar", "string")
  , (fun n => pyStartsWith n "ntext", "string")
  , (fun n => pyStartsWith n "int", "int")
  , (fun n => pyStartsWith n "tinyint", "int")
  , (fun n => pyStartsWith n "smallint", "int")
  , (fun n => pyStartsWith n "bigint", "long")
  , (fun n => pyStartsWith n "float" || pyStartsWith n "double" || n == "real", "float")
  , (fun n => pyStartsWith n "number", "decimal")
  , (fun n => pyStartsWith n "numeric", "decimal")
  , (fun n => pyStartsWith n "decimal", "decimal")
  , (fun n => pyStartsWith n "bool", "boolean")
  , (fun n => pyStartsWith n "bit", "boolean")
  , (fun n => pyStartsWith n "binary", "bytes")
  , (fun n => pyStartsWith n "varbinary", "bytes")
  , (fun n => n == "date", "date")
  , (fun n => n == "time", "string")
  , (fun n => n == "timestamp", "timestamp_ntz")
  , (fun n => n == "timestamptz" || n == "timestamp_tz"
      || n == "timestamp with time zone" || n == "timestamp_ltz", "timestamp_tz")
  , (fun n => n == "timestampntz" || n == "timestamp_ntz", "timestamp_ntz")
  , (fun n => n == "smalldatetime", "timestamp_ntz")
  , (fun n => n == "datetime", "timestamp_ntz")
  , (fun n => n == "datetime2", "timestamp_ntz")
  , (fun n => n == "datetimeoffset", "timestamp_tz")
  , (fun n => n == "uniqueidentifier", "string")
  , (fun n => n == "json", "string")
  , (fun n => n == "xml", "string") ]

/-- The body of `map_type_from_sql` after `sql_type.lower().strip()`: the
first matching branch wins, the final `else` returns `object`. -/
def mapTypeCore (n : String) : String :=
  match sqlTypeRules.find? (fun r => r.1 n) with
  | some r => r.2
  | none => "object"

/-- `map_type_from_sql`: `None` maps to `None`, otherwise the token is
lowercased, stripped and pushed through the keyword/prefix chain. -/
def map_type_from_sql (sqlType : Option String) : Option String :=
  match sqlType with
  | none => none
  | some s => some (mapTypeCore (pyStrip (pyLower s)))

/-- A normalized token matches some keyword or prefix rule of the chain. -/
def sqlRuleMatchesCore (n : String) : Bool :=
  sqlTypeRules.any (fun r => r.1 n)

/-- A raw token matches a rule iff its normalized form matches a core rule. -/
def sqlRuleMatches (s : String) : Bool :=
  sqlRuleMatchesCore (pyStrip (pyLower s))

/-! ## SQL importer: dialect registry -/

/-- Result of `to_dialect`: Python returns either `None`, a member of
sqlglot's `Dialects` enum (represented by its uppercase member name), or the
literal string `"None"` for an unknown dialect identifier. -/
inductive DialectRes : Type where
  | pyNone
  | dialect (nameUpper : String)
  | noneString
  deriving DecidableEq, Repr

/-- Member names of sqlglot's `Dialects` enumeration (external library). -/
def dialectsMembers : List String :=
  ["ATHENA", "BIGQUERY", "CLICKHOUSE", "DATABRICKS", "DORIS", "DRILL", "DUCKDB",
   "HIVE", "MATERIALIZE", "MYSQL", "ORACLE", "POSTGRES", "PRESTO", "PRQL",
   "REDSHIFT", "RISINGWAVE", "SNOWFLAKE", "SPARK", "SPARK2", "SQLITE",
   "STARROCKS", "TABLEAU", "TERADATA", "TRINO", "TSQL"]

/-- `to_dialect(import_args)`: the `import_args` dict is an association list
whose values may be Python `None`. -/
def to_dialect (importArgs : Option (List (String × Option String))) : DialectRes :=
  match importArgs with
  | none => .pyNone
  | some args =>
    match lookupA args "dialect" with
    | none => .pyNone
    | some none => .pyNone
    | some (some d) =>
      if d = "sqlserver" then .dialect "TSQL"
      else if pyUpper d ∈ dialectsMembers then .dialect (pyUpper d)
      else .noneString

/-- `to_physical_type_key`: the extension key for the original physical type
string.  A `Dialects` member is also a `str` in Python, so the
`isinstance(dialect, str)` renormalization is the identity on members, and the
string `"None"` is not a member, so it falls back like Python `None`. -/
def to_physical_type_key (dialect : DialectRes) : String :=
  match dialect with
  | .dialect "TSQL" => "sqlserverType"
  | .dialect "POSTGRES" => "postgresType"
  | .dialect "BIGQUERY" => "bigqueryType"
  | .dialect "SNOWFLAKE" => "snowflakeType"
  | .dialect "REDSHIFT" => "redshiftType"
  | .dialect "ORACLE" => "oracleType"
  | .dialect "MYSQL" => "mysqlType"
  | .dialect "DATABRICKS" => "databricksType"
  | _ => "physicalType"

/-- `to_server_type`: the inferred server type for a known dialect (the
`source` argument is ignored by the Python body as well). -/
def to_server_type (dialect : DialectRes) : Option String :=
  match dialect with
  | .dialect "TSQL" => some "sqlserver"
  | .dialect "POSTGRES" => some "postgres"
  | .dialect "BIGQUERY" => some "bigquery"
  | .dialect "SNOWFLAKE" => some "snowflake"
  | .dialect "REDSHIFT" => some "redshift"
  | .dialect "ORACLE" => some "oracle"
  | .dialect "MYSQL" => some "mysql"
  | .dialect "DATABRICKS" => some "databricks"
  | _ => none

/-! ## SQL importer: model of the sqlglot parse tree

The importer consumes the tree produced by `sqlglot.parse_one`.  Only the
parts the importer reads are modelled.  `rendered` carries the string the
external sqlglot generator returns for `kind.sql(dialect)`. -/

/-- A `sqlglot` `DataType` node as consumed by the importer: `name` is
`kind.this.name` (the type-enum member name, e.g. `DECIMAL`), `params` are the
`DataTypeParam` names in order, `rendered` is `kind.sql(dialect)`. -/
structure SqlDataType : Type where
  name : String
  params : List String
  rendered : String
  deriving DecidableEq, Repr

/-- A `sqlglot` `ColumnDef` node.  `inlinePrimaryKey` is true when the column
subtree contains a `PrimaryKeyColumnConstraint` (or `PrimaryKey`) node, i.e.
an inline per-column `PRIMARY KEY`; a table-level `PRIMARY KEY (a, b)` is a
sibling of the `ColumnDef`s in the `Schema` expression list, never a
descendant of a column, so it is recorded in `SqlParsed.pkConstraints`
instead. -/
structure SqlColumnDef : Type where
  name : String
  parentName : String
  kind : Option SqlDataType
  notNull : Bool
  inlinePrimaryKey : Bool
  comments : Option (List String) := none
  commentConstraint : Option String := none
  tags : Option (List String) := none
  deriving DecidableEq, Repr

/-- The parse tree of one DDL statement, as traversed by the importer:
`tableNames` are the `exp.Table` nodes found by `find_all`, `columns` the
`exp.ColumnDef` nodes, `schemaComment` the `SchemaCommentProperty`,
`tags` the table-level `Tags` property, and `pkConstraints` the table-level
`exp.PrimaryKey` column lists (present in the tree; the importer never reads
them). -/
structure SqlParsed : Type where
  tableNames : List String
  columns : List SqlColumnDef
  schemaComment : Option String := none
  tags : Option (List String) := none
  pkConstraints : List (List String) := []
  deriving DecidableEq, Repr

/-! ## DCS data model

Modelled from the spec: the `DataContractSpecification` record types
(`datacontract/model/data_contract_specification.py`) are not among the
analysed sources; section 3 of the specification describes them as plain
records of optional fields plus an ordered open extension map, with the
maps defaulting to empty.  Optional attributes default to absence.  A Python
`re.Match` object (what `import_servers` actually stores in
`storageAccount`) is modelled by `ReMatch`, a type distinct from `String`. -/

/-- Model of the `re.Match` object produced by `re.search` for the azure
location pattern: `group1` is what `.group(1)` would return. -/
structure ReMatch : Type where
  group1 : String
  deriving DecidableEq, Repr

/-- Modelled from the spec: `Info.contact` (email / url channels). -/
structure DContact : Type where
  email : Option String := none
  url : Option String := none
  deriving DecidableEq, Repr

/-- Modelled from the spec: the DCS `Info` block (title, version,
description, owner, optional status and contact; `dataProduct` and `tenant`
are the open extension attributes the ODCS importer assigns). -/
structure DInfo : Type where
  title : String := ""
  version : Option String := none
  description : Option String := none
  owner : Option String := none
  status : Option String := none
  contact : Option DContact := none
  dataProduct : Option String := none
  tenant : Option String := none
  deriving DecidableEq, Repr

/-- Modelled from the spec: a DCS server role. -/
structure DServerRole : Type where
  name : Option String := none
  description : Option String := none
  deriving DecidableEq, Repr

/-- Modelled from the spec: the DCS `Server` record, one record with many
optional fields. -/
structure DServer : Type where
  type : Option String := none
  description : Option String := none
  environment : Option String := none
  format : Option String := none
  project : Option String := none
  dataset : Option String := none
  path : Option String := none
  delimiter : Option String := none
  endpointUrl : Option String := none
  location : Option String := none
  account : Option String := none
  database : Option String := none
  schema_ : Option String := none
  host : Option String := none
  port : Option Int := none
  catalog : Option String := none
  topic : Option String := none
  http_path : Option String := none
  token : Option String := none
  driver : Option String := none
  roles : Option (List DServerRole) := none
  storageAccount : Option ReMatch := none
  deriving DecidableEq, Repr

/-- Modelled from the spec: DCS `Terms`. -/
structure DTerms : Type where
  description : Option String := none
  usage : Option String := none
  limitations : Option String := none
  billing : Option String := none
  deriving DecidableEq, Repr

/-- Modelled from the spec: DCS availability service level. -/
structure DAvailability : Type where
  description : Option String := none
  deriving DecidableEq, Repr

/-- Modelled from the spec: DCS retention service level. -/
structure DRetention : Type where
  period : Option String := none
  deriving DecidableEq, Repr

/-- Modelled from the spec: DCS `ServiceLevel`. -/
structure DServiceLevel : Type where
  availability : Option DAvailability := none
  retention : Option DRetention := none
  deriving DecidableEq, Repr

/-- Modelled from the spec: a DCS `Field`.  `config` is the per-dialect
physical-type extension map (its values may be Python `None`), `extra` the
ordered open extension-property map filled by `add_custom_property`. -/
structure DField : Type where
  name : Option String := none
  type : Option String := none
  description : Option String := none
  maxLength : Option Nat := none
  precision : Option Nat := none
  scale : Option Nat := none
  primaryKey : Option Bool := none
  required : Option Bool := none
  unique : Option Bool := none
  tags : Option (List String) := none
  config : List (String × Option String) := []
  extra : List (String × String) := []
  deriving DecidableEq, Repr

/-- Modelled from the spec: a DCS `Model`; `fields` is an ordered mapping
from (possibly `None`) field name to `Field`, `extra` the open
extension-property map. -/
structure DModel : Type where
  type : Option String := none
  title : Option String := none
  description : Option String := none
  tags : Option (List String) := none
  fields : List (Option String × DField) := []
  extra : List (String × String) := []
  deriving DecidableEq, Repr

/-- Modelled from the spec: the root `DataContractSpecification`.  The server
and model mappings default to empty; Python `None` and the empty dict are
merged into the empty list (the exporter treats them identically). -/
structure DCS : Type where
  id : Option String := none
  info : DInfo := {}
  servers : List (String × DServer) := []
  terms : Option DTerms := none
  servicelevels : Option DServiceLevel := none
  models : List (Option String × DModel) := []
  tags : Option (List String) := none
  deriving DecidableEq, Repr

/-! ## SQL importer: per-column extraction

Source: `datacontract/imports/sql_importer.py`. -/

/-- `to_col_type(column, dialect)`: `kind.sql(dialect)` when a type
expression exists (the rendered string is carried on the modelled node). -/
def to_col_type (column : SqlColumnDef) : Option String :=
  column.kind.map (fun k => k.rendered)

/-- `to_col_type_normalized(column)`: `column.args["kind"].this.name.lower()`.
When `kind` is `None` the attribute access `None.this` raises
`AttributeError` (the body has no guard before the dereference). -/
def to_col_type_normalized (column : SqlColumnDef) : Except PyErr String :=
  match column.kind with
  | none => .error .attributeError
  | some k => .ok (pyLower k.name)

/-- `get_description(column)`: joined stripped comments, else the
`CommentColumnConstraint` text. -/
def get_description (column : SqlColumnDef) : Option String :=
  match column.comments with
  | none => column.commentConstraint
  | some cs => some (String.intercalate " " (cs.map pyStrip))

/-- `get_tags(column)`. -/
def get_tags (column : SqlColumnDef) : Option (List String) :=
  column.tags

/-- `get_primary_key(column)`: only the inline per-column constraint nodes
inside the `ColumnDef` subtree are visible to `column.find`; returns `True`
or `None`, never `False`. -/
def get_primary_key (column : SqlColumnDef) : Option Bool :=
  if column.inlinePrimaryKey then some true else none

/-- `get_max_length(column)`: calls `to_col_type_normalized` first, which
raises on a column without a type expression.  With three or more type
parameters the function falls through and returns `None`. -/
def get_max_length (column : SqlColumnDef) : Except PyErr (Option Nat) :=
  match to_col_type_normalized column with
  | .error e => .error e
  | .ok ct =>
    if (ct = "varchar" || ct = "char" || ct = "nvarchar" || ct = "nchar") = false then .ok none
    else
      match (column.kind.map (fun k => k.params)).getD [] with
      | [] => .ok none
      | [a] => .ok (if pyIsDigit a then some (digitsToNat a) else none)
      | [_, b] => .ok (if pyIsDigit b then some (digitsToNat b) else none)
      | _ => .ok none

/-- `get_precision_scale(column)`: same normalized-type gate; a single
parameter defaults the scale to 0; non-digit parameters yield no size
information. -/
def get_precision_scale (column : SqlColumnDef) : Except PyErr (Option Nat × Option Nat) :=
  match to_col_type_normalized column with
  | .error e => .error e
  | .ok ct =>
    if (ct = "decimal" || ct = "numeric" || ct = "float" || ct = "number") = false then .ok (none, none)
    else
      match (column.kind.map (fun k => k.params)).getD [] with
      | [] => .ok (none, none)
      | [a] => if pyIsDigit a then .ok (some (digitsToNat a), some 0) else .ok (none, none)
      | [a, b] =>
        if pyIsDigit a && pyIsDigit b then .ok (some (digitsToNat a), some (digitsToNat b))
        else .ok (none, none)
      | _ => .ok (none, none)

/-- The loop body of `sqlglot_model_wrapper` building one `Field` from one
`ColumnDef`, in source order; `required` is
`NotNullColumnConstraint found or None`, and `unique` is never assigned. -/
def mkSqlField (column : SqlColumnDef) (dialect : DialectRes) : Except PyErr DField :=
  let colType := to_col_type column
  match get_max_length column with
  | .error e => .error e
  | .ok maxLen =>
    match get_precision_scale column with
    | .error e => .error e
    | .ok ps =>
      .ok { type := map_type_from_sql colType
            , description := get_description column
            , maxLength := maxLen
            , precision := ps.1
            , scale := ps.2
            , primaryKey := get_primary_key column
            , required := if column.notNull then some true else none
            , unique := none
            , tags := get_tags column
            , config := [(to_physical_type_key dialect, colType)] }

/-- The column loop of `sqlglot_model_wrapper`: columns of other tables are
skipped, each field is stored in the ordered dict under its column name. -/
def wrapperColumns (cols : List SqlColumnDef) (dialect : DialectRes)
    (acc : List (Option String × DField)) : Except PyErr (List (Option String × DField)) :=
  match cols with
  | [] => .ok acc
  | c :: rest =>
    match mkSqlField c dialect with
    | .error e => .error e
    | .ok f => wrapperColumns rest dialect (insertA acc (some c.name) f)

/-- `sqlglot_model_wrapper(table, parsed, dialect)`: table name, fields,
table description (from the `SchemaCommentProperty`), table tags.  The
table-level `pkConstraints` of the parse tree are never consulted. -/
def sqlglot_model_wrapper (parsed : SqlParsed) (tableName : String) (dialect : DialectRes) :
    Except PyErr (String × List (Option String × DField) × Option String × Option (List String)) :=
  match wrapperColumns (parsed.columns.filter (fun c => c.parentName = tableName)) dialect [] with
  | .error e => .error e
  | .ok fields => .ok (tableName, fields, parsed.schemaComment, parsed.tags)

/-! ## SQL importer: `read_file` and `import_sql` -/

/-- Python `\w` (ASCII view). -/
def isWordChar (c : Char) : Bool :=
  c.isAlphanum || c = '_'

/-- Matches the regex `\w+\}` at the head of `rest`: returns the captured
word and the remainder after the closing brace. -/
def matchDollarWord (rest : List Char) : Option (List Char × List Char) :=
  let w := rest.takeWhile isWordChar
  if w = [] then none
  else
    match rest.drop w.length with
    | '}' :: rest2 => some (w, rest2)
    | _ => none

theorem matchDollarWord_lt (rest w rest2 : List Char)
    (h : matchDollarWord rest = some (w, rest2)) : rest2.length < rest.length := by
  unfold matchDollarWord at h
  by_cases hw : rest.takeWhile isWordChar = []
  · simp [hw] at h
  · rw [if_neg hw] at h
    split at h
    · rename_i rest3 heq
      have h2 : rest2 = rest3 := by
        simp only [Option.some.injEq, Prod.mk.injEq] at h
        exact h.2.symm
      subst h2
      have hlen := congrArg List.length heq
      have hle : (rest.takeWhile isWordChar).length ≤ rest.length := by
        simpa using (List.takeWhile_sublist isWordChar).length_le
      have hpos : 0 < (rest.takeWhile isWordChar).length := List.length_pos.mpr hw
      rw [List.length_drop] at hlen
      simp only [List.length_cons] at hlen
      omega
    · exact absurd h (by simp)

/-- Model of `re.sub(r'\$\{(\w+)\}', r'\1', content)`: each `${word}` is
replaced by `word`, scanning left to right, non-overlapping. -/
def stripDollarGo (l : List Char) : List Char :=
  match l with
  | [] => []
  | '$' :: '{' :: rest =>
    match h : matchDollarWord rest with
    | some (w, rest2) => w ++ stripDollarGo rest2
    | none => '$' :: stripDollarGo ('{' :: rest)
  | c :: rest => c :: stripDollarGo rest
termination_by l.length
decreasing_by
  · have := matchDollarWord_lt rest w rest2 h
    simp only [List.length_cons]
    omega
  · simp only [List.length_cons]
    omega
  · simp only [List.length_cons]
    omega

/-- `re.sub` applied to a whole file. -/
def stripDollarBraces (s : String) : String :=
  String.mk (stripDollarGo s.data)

/-- `read_file(path)`: a missing file raises the structured exception, an
existing file is read and the `${...}` substitution applied.  The file
system is an explicit parameter (`os.path.exists` / `open`). -/
def read_file (fs : String → Option String) (path : String) : Except PyErr String :=
  match fs path with
  | none => .error (.dcException ("Reading source from " ++ path)
      ("The file " ++ path ++ " does not exist."))
  | some content => .ok (stripDollarBraces content)

/-- The table loop of `import_sql`: one `Model` of type `"table"` per parsed
table name; a wrapper exception aborts the loop and propagates (models added
by earlier iterations are kept, as in Python). -/
def importSqlTables (tables : List String) (parsed : SqlParsed) (dialect : DialectRes)
    (dcs : DCS) : DCS × Option PyErr :=
  match tables with
  | [] => (dcs, none)
  | t :: rest =>
    match sqlglot_model_wrapper parsed t dialect with
    | .error e => (dcs, some e)
    | .ok (tableName, fields, tableDescription, tableTags) =>
      importSqlTables rest parsed dialect
        { dcs with models := (insertA dcs.models (some tableName)
            ({ type := some "table", description := tableDescription,
               tags := tableTags, fields := fields } : DModel)) }

/-- `import_sql`: the inferred server entry is written into the caller's
specification *before* the file is read and parsed; a read or parse failure
then raises the structured exception.  `parse` models
`sqlglot.parse_one` (plus `find_all(Table)`); its error message is wrapped
like the Python `except` block does.  The mutated specification is returned
together with the outcome, since a raised exception leaves earlier
mutations to the caller's object in place. -/
def import_sql (fs : String → Option String) (parse : String → Except String SqlParsed)
    (dcs : DCS) (source : String) (importArgs : Option (List (String × Option String))) :
    DCS × Option PyErr :=
  let dialect := to_dialect importArgs
  let dcs1 :=
    match to_server_type dialect with
    | some st => { dcs with servers := insertA dcs.servers st { type := some st } }
    | none => dcs
  match read_file fs source with
  | .error e => (dcs1, some e)
  | .ok sql =>
    match parse sql with
    | .error msg => (dcs1, some (.dcException ("Reading source from " ++ source)
        ("Error parsing SQL: " ++ msg)))
    | .ok parsed => importSqlTables parsed.tableNames parsed dialect dcs1

/-! ## ODCS document model

The `open_data_contract_standard.model` classes (an external package), with
exactly the attributes the importer and exporter touch. -/

/-- An ODCS custom property. -/
structure OCustomProperty : Type where
  property : String
  value : String
  deriving DecidableEq, Repr

/-- The ODCS description block. -/
structure ODescription : Type where
  purpose : Option String := none
  usage : Option String := none
  limitations : Option String := none
  deriving DecidableEq, Repr

/-- The ODCS price block (its fields are only rendered into a string). -/
structure OPrice : Type where
  priceAmount : Option String := none
  priceCurrency : Option String := none
  priceUnit : Option String := none
  deriving DecidableEq, Repr

/-- An ODCS SLA property. -/
structure OSlaProperty : Type where
  property : String
  value : Option String := none
  unit : Option String := none
  deriving DecidableEq, Repr

/-- An ODCS support channel entry. -/
structure OSupport : Type where
  channel : String
  url : String
  deriving DecidableEq, Repr

/-- An ODCS server role. -/
structure ORole : Type where
  role : Option String := none
  description : Option String := none
  deriving DecidableEq, Repr

/-- An ODCS server record. -/
structure OServer : Type where
  server : Option String := none
  type : Option String := none
  description : Option String := none
  environment : Option String := none
  format : Option String := none
  project : Option String := none
  dataset : Option String := none
  path : Option String := none
  delimiter : Option String := none
  endpointUrl : Option String := none
  location : Option String := none
  account : Option String := none
  database : Option String := none
  schema_ : Option String := none
  host : Option String := none
  port : Option Int := none
  catalog : Option String := none
  topic : Option String := none
  http_path : Option String := none
  token : Option String := none
  driver : Option String := none
  roles : Option (List ORole) := none
  deriving DecidableEq, Repr

/-- An ODCS schema property (column). -/
structure OSchemaProperty : Type where
  name : Option String := none
  physicalType : Option String := none
  description : Option String := none
  primaryKey : Option Bool := none
  customProperties : Option (List OCustomProperty) := none
  deriving DecidableEq, Repr

/-- An ODCS schema object (table). -/
structure OSchemaObject : Type where
  name : Option String := none
  physicalName : Option String := none
  logicalType : Option String := none
  physicalType : Option String := none
  description : Option String := none
  properties : Option (List OSchemaProperty) := none
  customProperties : Option (List OCustomProperty) := none
  deriving DecidableEq, Repr

/-- An ODCS document. -/
structure Odcs : Type where
  apiVersion : Option String := none
  kind : Option String := none
  id : Option String := none
  name : Option String := none
  version : Option String := none
  status : Option String := none
  dataProduct : Option String := none
  tenant : Option String := none
  description : Option ODescription := none
  price : Option OPrice := none
  customProperties : Option (List OCustomProperty) := none
  schema_ : Option (List OSchemaObject) := none
  slaProperties : Option (List OSlaProperty) := none
  support : Option (List OSupport) := none
  servers : Option (List OServer) := none
  tags : Option (List String) := none
  deriving DecidableEq, Repr

/-! ## ODCS importer

Source: `datacontract/imports/odcs_v3_importer.py`. -/

/-- `get_owner(custom_properties)`: the first custom property named
`owner`. -/
def get_owner (cps : Option (List OCustomProperty)) : Option String :=
  match cps with
  | none => none
  | some l =>
    match l.find? (fun p => p.property = "owner") with
    | some p => some p.value
    | none => none

/-- `import_info(odcs)`: title from `name` (empty string when absent),
version, description from the purpose, owner from the custom properties,
`dataProduct`/`tenant` as open extension attributes.  The ODCS `status` is
never read. -/
def import_info (odcs : Odcs) : DInfo :=
  { title := odcs.name.getD ""
    , version := odcs.version
    , description :=
        match odcs.description with
        | none => none
        | some d => d.purpose
    , owner := get_owner odcs.customProperties
    , dataProduct := odcs.dataProduct
    , tenant := odcs.tenant }

/-- `import_server_roles(roles)`: the Python body builds a `result` list but
falls off the end without a `return` statement, so every call returns
`None`.  The construction of `result` is kept to mirror the source. -/
def import_server_roles (roles : Option (List ORole)) : Option (List DServerRole) :=
  match roles with
  | none => none
  | some rs =>
    let result := rs.map (fun r => ({ name := r.role, description := r.description } : DServerRole))
    -- the loop fills `result`, but the function ends here without returning it
    none

/-- Leftmost-match model of `re.search(r"(?:@|://)([^.]+)\.", location)`:
after an `@` or a `://`, capture a maximal nonempty run of non-dot
characters followed by a literal dot.  Because the captured class excludes
the dot, the greedy run needs no backtracking. -/
def azGroupAt (l : List Char) : Option (List Char) :=
  let run := l.takeWhile (fun c => c ≠ '.')
  if run = [] then none
  else
    match l.drop run.length with
    | '.' :: _ => some run
    | _ => none

/-- Scan for the leftmost position where the pattern matches. -/
def azScan (l : List Char) : Option ReMatch :=
  match l with
  | [] => none
  | c :: rest =>
    if c = '@' then
      match azGroupAt rest with
      | some g => some { group1 := String.mk g }
      | none => azScan rest
    else if c = ':' && rest.take 2 = ['/', '/'] then
      match azGroupAt (rest.drop 2) with
      | some g => some { group1 := String.mk g }
      | none => azScan rest
    else azScan rest

/-- `re.search` for the azure account pattern; returns the match object. -/
def reSearchAzure (location : String) : Option ReMatch :=
  azScan location.data

/-- The per-server copy of `import_servers` without the `storageAccount`
line: every attribute is copied unconditionally, and `roles` goes through
`import_server_roles`. -/
def dserverOfOdcs (s : OServer) : DServer :=
  { type := s.type
    , description := s.description
    , environment := s.environment
    , format := s.format
    , project := s.project
    , dataset := s.dataset
    , path := s.path
    , delimiter := s.delimiter
    , endpointUrl := s.endpointUrl
    , location := s.location
    , account := s.account
    , database := s.database
    , schema_ := s.schema_
    , host := s.host
    , port := s.port
    , catalog := s.catalog
    , topic := s.topic
    , http_path := s.http_path
    , token := s.token
    , driver := s.driver
    , roles := import_server_roles s.roles
    , storageAccount := none }

/-- One iteration of the `import_servers` loop: for a server of type
`azure`, `re.search` is applied to the location; when the location is
Python `None` this raises `TypeError` (`re.search` requires a string), and
otherwise the *match object* itself is stored in `storageAccount`. -/
def importOneServer (s : OServer) : Except PyErr DServer :=
  if s.type = some "azure" then
    match s.location with
    | none => .error .typeError
    | some loc => .ok { dserverOfOdcs s with storageAccount := reSearchAzure loc }
  else .ok (dserverOfOdcs s)

/-- The `import_servers` loop: servers without a name are skipped with a
warning, the rest are stored under their name in document order. -/
def importServersLoop (ss : List OServer) (acc : List (String × DServer)) :
    Except PyErr (List (String × DServer)) :=
  match ss with
  | [] => .ok acc
  | s :: rest =>
    match s.server with
    | none => importServersLoop rest acc
    | some name =>
      match importOneServer s with
      | .error e => .error e
      | .ok ds => importServersLoop rest (insertA acc name ds)

/-- `import_servers(odcs)`: Python returns `None` when the document has no
server list; absence and the empty mapping are merged into `[]` here (the
exporter treats them identically). -/
def import_servers (servers : Option (List OServer)) : Except PyErr (List (String × DServer)) :=
  match servers with
  | none => .ok []
  | some ss => importServersLoop ss []

/-- Python `f"{x}"` on an optional string renders absence as `"None"`. -/
def pyFmt (o : Option String) : String :=
  match o with
  | none => "None"
  | some s => s

/-- `import_terms(odcs)`: usage/limitations from the description block,
billing rendered from the price record; `terms.description` is never
assigned. -/
def import_terms (odcs : Odcs) : Option DTerms :=
  match odcs.description with
  | none => none
  | some d =>
    if d.usage.isSome || d.limitations.isSome || odcs.price.isSome then
      some { usage := d.usage
             , limitations := d.limitations
             , billing :=
                 match odcs.price with
                 | none => none
                 | some p => some (pyFmt p.priceAmount ++ " " ++ pyFmt p.priceCurrency
                     ++ " / " ++ pyFmt p.priceUnit) }
    else none

/-- `import_servicelevels(odcs)`: scans the SLA list by property name for
`generalAvailability` and `retention`; the retention period is rendered as
`f"{value}{unit}"` (Python renders a missing value or unit as the string
`None`). -/
def import_servicelevels (odcs : Odcs) : Option DServiceLevel :=
  let slaProperties := odcs.slaProperties.getD []
  let availability := slaProperties.find? (fun p => p.property = "generalAvailability")
  let retention := slaProperties.find? (fun p => p.property = "retention")
  if availability.isSome || retention.isSome then
    some { availability :=
             match availability with
             | none => none
             | some a => some { description := a.value }
           , retention :=
             match retention with
             | none => none
             | some r => some { period := some (pyFmt r.value ++ pyFmt r.unit) } }
  else none

/-- Modelled from the spec: `DATACONTRACT_TYPES`, the fixed set of canonical
logical types of the internal model (the model module is not among the
analysed sources; section 3 of the specification lists the set). -/
def DATACONTRACT_TYPES : List String :=
  ["string", "integer", "long", "float", "decimal", "boolean", "date",
   "timestamp_tz", "timestamp_ntz", "bytes", "array", "object", "variant", "null"]

/-- `map_type(odcs_type, custom_mappings)`: known canonical names pass
through lowercased, otherwise the document-scoped custom mapping is
consulted, otherwise `None`. -/
def map_type (odcsType : Option String) (customMappings : List (String × String)) :
    Option String :=
  match odcsType with
  | none => none
  | some t =>
    let tl := pyLower t
    if tl ∈ DATACONTRACT_TYPES then some tl
    else
      match lookupA customMappings tl with
      | some v => some v
      | none => none

/-- `get_custom_type_mappings(custom_properties)`: keys prefixed with
`dc_mapping_` define source-name to canonical-name aliases; the prefix
(11 characters) is sliced off. -/
def get_custom_type_mappings (cps : Option (List OCustomProperty)) : List (String × String) :=
  match cps with
  | none => []
  | some l =>
    l.foldl
      (fun acc p =>
        if pyStartsWith p.property "dc_mapping_" then
          insertA acc (String.mk (p.property.data.drop 11)) p.value
        else acc)
      []

/-- The `add_custom_property` loop over a custom-property list (modelled
from the spec: an ordered key-to-value extension map). -/
def foldCustomProps (cps : Option (List OCustomProperty)) : List (String × String) :=
  match cps with
  | none => []
  | some l => l.foldl (fun acc p => insertA acc p.property p.value) []

/-- The loop body of `import_fields` building one `Field`: the field type is
taken verbatim from the property's `physicalType`; the `custom_type_mappings`
argument and `map_type` are never consulted by the loop. -/
def mkFieldFromProp (p : OSchemaProperty) : DField :=
  { name := p.name
    , type := p.physicalType
    , description := p.description
    , extra := foldCustomProps p.customProperties }

/-- `import_fields(odcs_properties, custom_type_mappings, server_type)`:
fields are stored under their (possibly absent) property name; the last two
arguments are accepted and ignored, as in the source. -/
def import_fields (properties : Option (List OSchemaProperty))
    (customTypeMappings : List (String × String)) (serverType : Option String) :
    List (Option String × DField) :=
  match properties with
  | none => []
  | some ps => ps.foldl (fun acc p => insertA acc p.name (mkFieldFromProp p)) []

/-- The loop body of `import_models` building one `Model` from one schema
object. -/
def mkModelFromSchema (customTypeMappings : List (String × String)) (s : OSchemaObject) :
    DModel :=
  { description := s.description
    , type := s.physicalType
    , title := s.name
    , fields := import_fields s.properties customTypeMappings none
    , extra := foldCustomProps s.customProperties }

/-- `import_models(odcs)`: the custom type mappings are computed from the
document's custom properties and passed along (unused); models are stored
under their (possibly absent) schema name. -/
def import_models (odcs : Odcs) : List (Option String × DModel) :=
  let customTypeMappings := get_custom_type_mappings odcs.customProperties
  (odcs.schema_.getD []).foldl
    (fun acc s => insertA acc s.name (mkModelFromSchema customTypeMappings s)) []

/-- `import_tags(odcs)`. -/
def import_tags (odcs : Odcs) : Option (List String) :=
  odcs.tags

/-- `import_from_odcs(data_contract_specification, odcs)`: assigns every
part of the specification in source order.  Only the server import can
raise; the raised exception propagates. -/
def import_from_odcs (dcs : DCS) (odcs : Odcs) : Except PyErr DCS :=
  match import_servers odcs.servers with
  | .error e => .error e
  | .ok servers =>
    .ok { dcs with
          id := odcs.id
          , info := import_info odcs
          , servers := servers
          , terms := import_terms odcs
          , servicelevels := import_servicelevels odcs
          , models := import_models odcs
          , tags := import_tags odcs }

/-! ## ODCS exporter

Source: `datacontract/export/odcs_v3_exporter.py`. -/

/-- `to_status(status)`: lowercase, check against the fixed enum, default to
`draft` for absence or anything non-standard. -/
def to_status (status : Option String) : String :=
  match status with
  | none => "draft"
  | some s =>
    let statusLower := pyLower s
    if statusLower = "proposed" || statusLower = "draft" || statusLower = "active"
        || statusLower = "deprecated" || statusLower = "retired" then statusLower
    else "draft"

/-- `to_physical_type(config)`: the per-dialect extension keys in fixed
precedence order.  Defined from the source although the exporter never calls
it. -/
def to_physical_type (config : List (String × Option String)) : Option String :=
  if (lookupA config "postgresType").isSome then (lookupA config "postgresType").getD none
  else if (lookupA config "bigqueryType").isSome then (lookupA config "bigqueryType").getD none
  else if (lookupA config "snowflakeType").isSome then (lookupA config "snowflakeType").getD none
  else if (lookupA config "redshiftType").isSome then (lookupA config "redshiftType").getD none
  else if (lookupA config "sqlserverType").isSome then (lookupA config "sqlserverType").getD none
  else if (lookupA config "databricksType").isSome then (lookupA config "databricksType").getD none
  else if (lookupA config "physicalType").isSome then (lookupA config "physicalType").getD none
  else none

/-- `to_property(field_name, field)`: the ODCS `physicalType` is set from
the field's *canonical* type; the field's `config` map is not consulted. -/
def to_property (fieldName : Option String) (field : DField) : OSchemaProperty :=
  { name := fieldName
    , physicalType := field.type
    , description := field.description
    , customProperties :=
        if field.extra = [] then none
        else some (field.extra.map (fun kv => ({ property := kv.1, value := kv.2 } : OCustomProperty))) }

/-- `to_properties(fields)`. -/
def to_properties (fields : List (Option String × DField)) : List OSchemaProperty :=
  fields.map (fun kv => to_property kv.1 kv.2)

/-- `to_odcs_schema(model_key, model_value)`. -/
def to_odcs_schema (modelKey : Option String) (m : DModel) : OSchemaObject :=
  { name := modelKey
    , physicalName := modelKey
    , logicalType := some "object"
    , physicalType := m.type
    , description := m.description
    , properties := some (to_properties m.fields)
    , customProperties :=
        if m.extra = [] then none
        else some (m.extra.map (fun kv => ({ property := kv.1, value := kv.2 } : OCustomProperty))) }

/-- Python `x or ""` on an optional string. -/
def pyOrEmpty (o : Option String) : String :=
  match o with
  | none => ""
  | some s => s

/-- The per-server export: a fresh ODCS server with name and type, then
every non-absent attribute copied (copying a `none` would be a no-op on the
fresh record, so the guarded copies equal direct assignment).  The source's
copy list has no entry for the server description — the only `description`
in the block is inside the roles comprehension — so the exported server's
`description` stays absent; `storageAccount` is not exported either. -/
def toOdcsServer (serverKey : String) (s : DServer) : OServer :=
  { server := some serverKey
    , type := some (pyOrEmpty s.type)
    , description := none
    , environment := s.environment
    , format := s.format
    , project := s.project
    , dataset := s.dataset
    , path := s.path
    , delimiter := s.delimiter
    , endpointUrl := s.endpointUrl
    , location := s.location
    , account := s.account
    , database := s.database
    , schema_ := s.schema_
    , host := s.host
    , port := s.port
    , catalog := s.catalog
    , topic := s.topic
    , http_path := s.http_path
    , token := s.token
    , driver := s.driver
    , roles :=
        match s.roles with
        | none => none
        | some rs => some (rs.map (fun r => ({ role := r.name, description := r.description } : ORole))) }

/-- `to_odcs_v3(data_contract_spec)`. -/
def to_odcs_v3 (dcs : DCS) : Odcs :=
  let slas : List OSlaProperty :=
    match dcs.servicelevels with
    | none => []
    | some sl =>
      (match sl.availability with
       | none => []
       | some a => [{ property := "generalAvailability", value := a.description }])
      ++
      (match sl.retention with
       | none => []
       | some r => [{ property := "retention", value := r.period }])
  let support : List OSupport :=
    match dcs.info.contact with
    | none => []
    | some c =>
      (match c.email with
       | none => []
       | some e => [{ channel := "email", url := "mailto:" ++ e }])
      ++
      (match c.url with
       | none => []
       | some u => [{ channel := "other", url := u }])
  let customProperties : List OCustomProperty :=
    (match dcs.info.owner with
     | none => []
     | some o => [{ property := "owner", value := o }])
    ++
    (match dcs.info.dataProduct with
     | none => []
     | some v => [{ property := "dataProduct", value := v }])
    ++
    (match dcs.info.tenant with
     | none => []
     | some v => [{ property := "tenant", value := v }])
  { apiVersion := some "v3.0.1"
    , kind := some "DataContract"
    , id := dcs.id
    , name := some dcs.info.title
    , version := dcs.info.version
    , status := some (to_status dcs.info.status)
    , description :=
        match dcs.terms with
        | none => none
        | some t => some { purpose := t.description.map pyStrip
                           , usage := t.usage.map pyStrip
                           , limitations := t.limitations.map pyStrip }
    , schema_ := some (dcs.models.map (fun kv => to_odcs_schema kv.1 kv.2))
    , slaProperties :=
        match dcs.servicelevels with
        | none => none
        | some _ => if slas = [] then none else some slas
    , support :=
        match dcs.info.contact with
        | none => none
        | some _ => if support = [] then none else some support
    , servers :=
        if dcs.servers = [] then none
        else some (dcs.servers.map (fun kv => toOdcsServer kv.1 kv.2))
    , customProperties :=
        if customProperties = [] then none else some customProperties }

/-! ## Object-storage credential checks

Sources: `datacontract/engines/fastjsonschema/az/az_read_files.py` and
`.../s3/s3_read_files.py`.  The `except ImportError as e:` clause binds `e`
only inside the except block (Python deletes the binding when the block
exits, and never creates it when no ImportError occurs), so the later
`raise DataContractException(..., original_exception=e)` statements evaluate
an unbound name: when a credential variable is missing while the storage
library imported fine, the attempted raise itself raises `NameError` before
any `DataContractException` is constructed. -/

/-- The filesystem client `adlfs.AzureBlobFileSystem(...)` would be
constructed with (construction only; no network access). -/
structure AzFsClient : Type where
  accountName : Option ReMatch
  clientId : String
  clientSecret : String
  tenantId : String
  anon : Bool
  deriving DecidableEq, Repr

/-- The filesystem client `s3fs.S3FileSystem(...)` would be constructed
with. -/
structure S3FsClient : Type where
  key : String
  secret : String
  token : String
  anon : Bool
  endpointUrl : String
  deriving DecidableEq, Repr

/-- `az_fs(az_storageAccount)`: `adlfsInstalled` models whether
`import adlfs` succeeds; `env` models `os.getenv`.  Each missing credential
branch tries to raise a `DataContractException` whose `name` spells out the
missing variable, but the reference to the out-of-scope `e` raises
`NameError` instead.  The `az_storageAccount` argument receives what
`import_servers` stored, an optional match object. -/
def az_fs (adlfsInstalled : Bool) (env : String → Option String)
    (azStorageAccount : Option ReMatch) : Except PyErr AzFsClient :=
  if adlfsInstalled = false then
    .error (.dcException "az extra missing"
      "Install the extra datacontract-cli[azure] to use az")
  else
    match env "DATACONTRACT_AZURE_CLIENT_ID" with
    | none => .error .nameError
    | some azClientId =>
      match env "DATACONTRACT_AZURE_CLIENT_SECRET" with
      | none => .error .nameError
      | some azClientSecret =>
        match env "DATACONTRACT_AZURE_TENANT_ID" with
        | none => .error .nameError
        | some azTenantId =>
          .ok { accountName := azStorageAccount
                , clientId := azClientId
                , clientSecret := azClientSecret
                , tenantId := azTenantId
                , anon := false }

/-- `s3_fs(s3_endpoint_url)`: same structure as `az_fs` with the S3
credential variables; the same out-of-scope `e` makes every missing-variable
branch raise `NameError`. -/
def s3_fs (s3fsInstalled : Bool) (env : String → Option String)
    (s3EndpointUrl : String) : Except PyErr S3FsClient :=
  if s3fsInstalled = false then
    .error (.dcException "s3 extra missing" "Install the extra s3 to use s3")
  else
    match env "DATACONTRACT_S3_ACCESS_KEY_ID" with
    | none => .error .nameError
    | some awsAccessKeyId =>
      match env "DATACONTRACT_S3_SECRET_ACCESS_KEY" with
      | none => .error .nameError
      | some awsSecretAccessKey =>
        match env "DATACONTRACT_S3_SESSION_TOKEN" with
        | none => .error .nameError
        | some awsSessionToken =>
          .ok { key := awsAccessKeyId
                , secret := awsSecretAccessKey
                , token := awsSessionToken
                , anon := false
                , endpointUrl := s3EndpointUrl }

/-! ## Shared lemmas -/

theorem foldl_insertA_eq {α K V : Type} [DecidableEq K] (key : α → K) (val : α → V) :
    ∀ (l : List α) (acc : List (K × V)),
      (l.map key).Nodup → (∀ a ∈ l, ∀ p ∈ acc, p.1 ≠ key a) →
      l.foldl (fun acc a => insertA acc (key a) (val a)) acc
        = acc ++ l.map (fun a => (key a, val a)) := by
  intro l
  induction l with
  | nil => intro acc _ _; simp
  | cons a t ih =>
    intro acc hnd hfresh
    have hstep : insertA acc (key a) (val a) = acc ++ [(key a, val a)] :=
      insertA_fresh acc (key a) (val a) (fun p hp => hfresh a (List.mem_cons_self a t) p hp)
    have hnd' : (t.map key).Nodup := (List.nodup_cons.mp (by simpa using hnd)).2
    have hka : key a ∉ t.map key := (List.nodup_cons.mp (by simpa using hnd)).1
    have hfresh' : ∀ b ∈ t, ∀ p ∈ acc ++ [(key a, val a)], p.1 ≠ key b := by
      intro b hb p hp
      rcases List.mem_append.mp hp with hp1 | hp1
      · exact hfresh b (List.mem_cons_of_mem a hb) p hp1
      · have hpe : p = (key a, val a) := List.mem_singleton.mp hp1
        subst hpe
        intro hcontra
        have hab : key a = key b := hcontra
        exact hka (by rw [hab]; exact List.mem_map_of_mem key hb)
    calc (a :: t).foldl (fun acc x => insertA acc (key x) (val x)) acc
        = t.foldl (fun acc x => insertA acc (key x) (val x)) (acc ++ [(key a, val a)]) := by
          simp [hstep]
      _ = (acc ++ [(key a, val a)]) ++ t.map (fun x => (key x, val x)) := ih _ hnd' hfresh'
      _ = acc ++ (a :: t).map (fun x => (key x, val x)) := by simp

/-- The final `else` of the resolver: a normalized token matched by no
keyword or prefix rule maps to `object`. -/
theorem mapTypeCore_of_no_rule (n : String) (h : sqlRuleMatchesCore n = false) :
    mapTypeCore n = "object" := by
  unfold sqlRuleMatchesCore at h
  unfold mapTypeCore
  have hnone : sqlTypeRules.find? (fun r => r.1 n) = none := by
    rw [List.find?_eq_none]
    intro x hx
    rcases List.any_eq_false.mp h x hx with hfalse
    simpa using hfalse
  rw [hnone]

/-- Every resolver output is one of eleven literal type names. -/
theorem mapTypeCore_mem (n : String) :
    mapTypeCore n ∈ ["string", "int", "long", "float", "decimal", "boolean",
      "bytes", "date", "timestamp_ntz", "timestamp_tz", "object"] := by
  unfold mapTypeCore
  cases hf : sqlTypeRules.find? (fun r => r.1 n) with
  | none => decide
  | some r =>
    have hr : r ∈ sqlTypeRules := List.mem_of_find?_eq_some hf
    have h2 : r.2 ∈ sqlTypeRules.map Prod.snd := List.mem_map_of_mem Prod.snd hr
    have hsub : ∀ x ∈ sqlTypeRules.map Prod.snd,
        x ∈ ["string", "int", "long", "float", "decimal", "boolean",
          "bytes", "date", "timestamp_ntz", "timestamp_tz", "object"] := by decide
    exact hsub r.2 h2

/-- Projections of a field successfully built by the wrapper loop body. -/
theorem mkSqlField_ok_proj (c : SqlColumnDef) (d : DialectRes) (f : DField)
    (h : mkSqlField c d = .ok f) :
    f.type = map_type_from_sql (to_col_type c)
    ∧ f.primaryKey = get_primary_key c
    ∧ f.unique = none
    ∧ f.required = (if c.notNull then some true else none)
    ∧ f.config = [(to_physical_type_key d, to_col_type c)] := by
  simp only [mkSqlField] at h
  cases hml : get_max_length c with
  | error e => rw [hml] at h; simp at h
  | ok ml =>
    rw [hml] at h
    cases hps : get_precision_scale c with
    | error e => rw [hps] at h; simp at h
    | ok ps =>
      rw [hps] at h
      simp only [Except.ok.injEq] at h
      subst h
      exact ⟨rfl, rfl, rfl, rfl, rfl⟩

/-! ## Claim C3 -/

/-- C3 counterexample: the claim states that a token matched by no keyword
or prefix rule maps to the fallback `variant`; the token `geometry` matches
no rule and the resolver returns `object`, not `variant`. -/
theorem c3_fallback_counterexample :
    sqlRuleMatches "geometry" = false
    ∧ map_type_from_sql (some "geometry") = some "object"
    ∧ decide ((some "object" : Option String) = some "variant") = false := by
  decide

/-- C3 (amended): `map_type_from_sql` is total and deterministic — it is a
pure function — and every input token matched by no keyword or prefix rule
maps to the documented SQL-path fallback canonical type `object` (not
`variant`). -/
theorem c3_amended_sql_fallback_is_object (s : String) (h : sqlRuleMatches s = false) :
    map_type_from_sql (some s) = some "object" := by
  unfold sqlRuleMatches at h
  show some (mapTypeCore (pyStrip (pyLower s))) = some "object"
  rw [mapTypeCore_of_no_rule _ h]

/-- Witness for C3 at the concrete unmatched token `geometry`. -/
theorem c3_amended_sql_fallback_is_object_witness :
    map_type_from_sql (some "geometry") = some "object" :=
  c3_amended_sql_fallback_is_object "geometry" (by decide)

/-! ## Claim C5 -/

/-- The composite-primary-key example table `T(a INT, b INT,
PRIMARY KEY(a, b))` as parsed by sqlglot: two plain `INT` columns with no
inline constraints, and one table-level `PrimaryKey` expression listing both
columns (a sibling of the `ColumnDef`s, recorded in `pkConstraints`). -/
def colIntA : SqlColumnDef :=
  { name := "a", parentName := "T",
    kind := some { name := "INT", params := [], rendered := "INT" },
    notNull := false, inlinePrimaryKey := false }

def colIntB : SqlColumnDef :=
  { name := "b", parentName := "T",
    kind := some { name := "INT", params := [], rendered := "INT" },
    notNull := false, inlinePrimaryKey := false }

def compositePkParsed : SqlParsed :=
  { tableNames := ["T"], columns := [colIntA, colIntB], pkConstraints := [["a", "b"]] }

/-- The field mapping the wrapper produces for the example table. -/
def compositePkFields : List (Option String × DField) :=
  match sqlglot_model_wrapper compositePkParsed "T" (.dialect "POSTGRES") with
  | .ok r => r.2.1
  | .error _ => []

/-- C5 counterexample: an `INT` column imports with canonical type `int`,
and `int` is not a member of the claimed fixed set (which spells the type
`integer`). -/
theorem c5_type_set_counterexample :
    (lookupO compositePkFields (some "a")).map (fun f => f.type) = some (some "int")
    ∧ DATACONTRACT_TYPES.contains "int" = false := by
  decide

/-- C5 (amended): for every column successfully imported by the SQL path,
the canonical type is absent or belongs to the set `{string, int, long,
float, decimal, boolean, date, timestamp_tz, timestamp_ntz, bytes, object}`
(the code spells `integer` as `int`, and never produces `array`, `variant`
or `null`). -/
theorem c5_amended_sql_type_set (c : SqlColumnDef) (d : DialectRes) (f : DField)
    (h : mkSqlField c d = .ok f) :
    f.type = none
    ∨ ∃ t, f.type = some t ∧ t ∈ ["string", "int", "long", "float", "decimal",
        "boolean", "bytes", "date", "timestamp_ntz", "timestamp_tz", "object"] := by
  have hproj := (mkSqlField_ok_proj c d f h).1
  cases hk : c.kind with
  | none =>
    left
    rw [hproj]
    unfold to_col_type
    rw [hk]
    rfl
  | some k =>
    right
    refine ⟨mapTypeCore (pyStrip (pyLower k.rendered)), ?_, mapTypeCore_mem _⟩
    rw [hproj]
    unfold to_col_type
    rw [hk]
    rfl

/-- The field built for the `INT` column `a`. -/
def fieldIntA : DField :=
  match mkSqlField colIntA (.dialect "POSTGRES") with
  | .ok f => f
  | .error _ => {}

/-- Witness for C5 at the concrete `INT` column. -/
theorem c5_amended_sql_type_set_witness :
    fieldIntA.type = none
    ∨ ∃ t, fieldIntA.type = some t ∧ t ∈ ["string", "int", "long", "float", "decimal",
        "boolean", "bytes", "date", "timestamp_ntz", "timestamp_tz", "object"] :=
  c5_amended_sql_type_set colIntA (.dialect "POSTGRES") fieldIntA rfl

/-! ## Claim C2 -/

/-- C2 counterexample: in `T(a INT, b INT, PRIMARY KEY(a, b))` the
table-level primary-key constraint is present in the parse tree, yet both
imported fields have `primaryKey`, `required` and `unique` absent — not
`true` as the claim states. -/
theorem c2_composite_pk_counterexample :
    compositePkParsed.pkConstraints = [["a", "b"]]
    ∧ (lookupO compositePkFields (some "a")).map (fun f => (f.primaryKey, f.required, f.unique))
        = some (none, none, none)
    ∧ (lookupO compositePkFields (some "b")).map (fun f => (f.primaryKey, f.required, f.unique))
        = some (none, none, none)
    ∧ decide ((none : Option Bool) = some true) = false := by
  decide

/-- C2 (amended): the SQL import ignores table-level primary-key
constraints entirely — the wrapper's result does not depend on
`pkConstraints` — and a column without an inline per-column `PRIMARY KEY`
constraint imports with `primaryKey` absent; `unique` is never set by the
SQL importer, and `required` comes only from the column's own `NOT NULL`. -/
theorem c2_amended_inline_pk_only :
    (∀ (parsed : SqlParsed) (t : String) (d : DialectRes) (pks : List (List String)),
        sqlglot_model_wrapper { parsed with pkConstraints := pks } t d
          = sqlglot_model_wrapper parsed t d)
    ∧ (∀ (c : SqlColumnDef) (d : DialectRes) (f : DField),
        c.inlinePrimaryKey = false → mkSqlField c d = .ok f →
          f.primaryKey = none ∧ f.unique = none
            ∧ f.required = (if c.notNull then some true else none)) := by
  constructor
  · intro parsed t d pks
    rfl
  · intro c d f hpk hok
    have hproj := mkSqlField_ok_proj c d f hok
    refine ⟨?_, hproj.2.2.1, hproj.2.2.2.1⟩
    rw [hproj.2.1]
    unfold get_primary_key
    rw [hpk]
    simp

/-- Witness for C2 at the concrete column `a` of the composite-key table. -/
theorem c2_amended_inline_pk_only_witness :
    fieldIntA.primaryKey = none ∧ fieldIntA.unique = none
      ∧ fieldIntA.required = (if colIntA.notNull then some true else none) :=
  c2_amended_inline_pk_only.2 colIntA (.dialect "POSTGRES") fieldIntA rfl rfl

/-! ## Claim C4 -/

/-- A Postgres column `c numeric(10,2)` as parsed by sqlglot: the data type
node is the `DECIMAL` type-enum member with parameters `10`, `2`; the string
the generator renders for it is carried in `rendered`. -/
def colNumeric : SqlColumnDef :=
  { name := "c", parentName := "t",
    kind := some { name := "DECIMAL", params := ["10", "2"], rendered := "NUMERIC(10, 2)" },
    notNull := false, inlinePrimaryKey := false }

/-- The field the importer builds for the numeric column under the Postgres
dialect. -/
def fieldNumeric : DField :=
  match mkSqlField colNumeric (.dialect "POSTGRES") with
  | .ok f => f
  | .error _ => {}

/-- C4: the import side behaves as claimed — canonical type `decimal`,
precision 10, scale 2, and the rendered physical type stored under
`postgresType` — and the dead helper `to_physical_type` would recover that
string; but the exporter's `to_property` writes the canonical type as the
ODCS `physicalType` and never consults the field's `config`, so the
original string is not preserved on re-export. -/
theorem c4_physical_type_roundtrip_code_bug :
    fieldNumeric.type = some "decimal"
    ∧ fieldNumeric.precision = some 10
    ∧ fieldNumeric.scale = some 2
    ∧ fieldNumeric.config = [("postgresType", some "NUMERIC(10, 2)")]
    ∧ to_physical_type fieldNumeric.config = some "NUMERIC(10, 2)"
    ∧ (to_property (some "c") fieldNumeric).physicalType = some "decimal"
    ∧ decide ((some "decimal" : Option String) = some "NUMERIC(10, 2)") = false := by
  decide

/-! ## Claim C6 -/

/-- An ODCS document with a `dc_mapping_foo = string` document-level custom
property and one schema property whose type token is `foo`. -/
def dcMappingSchemaProp : OSchemaProperty :=
  { name := some "p", physicalType := some "foo" }

def dcMappingSchema : OSchemaObject :=
  { name := some "s", properties := some [dcMappingSchemaProp] }

def dcMappingOdcs : Odcs :=
  { customProperties := some [{ property := "dc_mapping_foo", value := "string" }]
    , schema_ := some [dcMappingSchema] }

/-- The canonical type the importer assigns to the property `p`. -/
def dcMappingFieldType : Option (Option String) :=
  match lookupO (import_models dcMappingOdcs) (some "s") with
  | some m => (lookupO m.fields (some "p")).map (fun f => f.type)
  | none => none

/-- C6: the `dc_mapping_foo` alias is collected into the document-scoped
mapping, and the dead resolver `map_type` would translate `foo` to
`string`; but `import_fields` copies the property's type token verbatim, so
the imported field's type is `foo`, not the mapped canonical type. -/
theorem c6_custom_mapping_code_bug :
    get_custom_type_mappings dcMappingOdcs.customProperties = [("foo", "string")]
    ∧ map_type (some "foo") [("foo", "string")] = some "string"
    ∧ dcMappingFieldType = some (some "foo")
    ∧ decide ((some "foo" : Option String) = some "string") = false := by
  decide

deriving instance DecidableEq for Except

/-! ## Claim C8 -/

/-- An imported azure server whose ODCS record has no location. -/
def azureNoLocServer : OServer :=
  { server := some "prod", type := some "azure", location := none }

/-- An imported azure server with a blob-storage location URI. -/
def azureLocServer : OServer :=
  { server := some "prod", type := some "azure",
    location := some "abfss://data@myacct.dfs.core.windows.net/path" }

/-- The `storageAccount` the importer stores for the located azure server. -/
def azureStoredAccount : Option (Option ReMatch) :=
  match import_servers (some [azureLocServer]) with
  | .ok l => (lookupA l "prod").map (fun s => s.storageAccount)
  | .error _ => none

/-- C8: an azure server with an absent location makes `import_servers`
raise `TypeError` (`re.search` on `None`), not yield absence; and for a
present location the importer stores the `re.Match` object itself (here its
group 1, `data@myacct`) rather than the extracted account-name string. -/
theorem c8_storage_account_code_bug :
    import_servers (some [azureNoLocServer]) = .error .typeError
    ∧ azureStoredAccount = some (some { group1 := "data@myacct" }) := by
  decide

/-! ## Claim C9 -/

/-- An environment in which exactly one variable is unset. -/
def envMissing (v : String) : String → Option String :=
  fun x => if x = v then none else some "value"

/-- C9: with the storage library importable and any single required
credential variable unset, `az_fs` / `s3_fs` raise `NameError` (the
out-of-scope `e` in the raise statement), not the structured
`DataContractException` whose `name` would spell out the missing
variable. -/
theorem c9_missing_credential_code_bug :
    az_fs true (envMissing "DATACONTRACT_AZURE_CLIENT_ID") none = .error .nameError
    ∧ az_fs true (envMissing "DATACONTRACT_AZURE_CLIENT_SECRET") none = .error .nameError
    ∧ az_fs true (envMissing "DATACONTRACT_AZURE_TENANT_ID") none = .error .nameError
    ∧ s3_fs true (envMissing "DATACONTRACT_S3_ACCESS_KEY_ID") "http://ep" = .error .nameError
    ∧ s3_fs true (envMissing "DATACONTRACT_S3_SECRET_ACCESS_KEY") "http://ep" = .error .nameError
    ∧ s3_fs true (envMissing "DATACONTRACT_S3_SESSION_TOKEN") "http://ep" = .error .nameError := by
  decide

/-! ## Claim C10 -/

theorem import_server_roles_eq_none (roles : Option (List ORole)) :
    import_server_roles roles = none := by
  cases roles <;> rfl

theorem importOneServer_ok_roles (s : OServer) (ds : DServer)
    (h : importOneServer s = .ok ds) : ds.roles = none := by
  unfold importOneServer at h
  by_cases ht : s.type = some "azure"
  · rw [if_pos ht] at h
    cases hl : s.location with
    | none => rw [hl] at h; simp at h
    | some loc =>
      rw [hl] at h
      simp only [Except.ok.injEq] at h
      subst h
      show import_server_roles s.roles = none
      exact import_server_roles_eq_none s.roles
  · rw [if_neg ht] at h
    simp only [Except.ok.injEq] at h
    subst h
    exact import_server_roles_eq_none s.roles

theorem importServersLoop_roles (ss : List OServer) :
    ∀ (acc : List (String × DServer)), (∀ p ∈ acc, p.2.roles = none) →
    ∀ (res : List (String × DServer)), importServersLoop ss acc = .ok res →
    ∀ p ∈ res, p.2.roles = none := by
  induction ss with
  | nil =>
    intro acc hacc res h p hp
    unfold importServersLoop at h
    simp only [Except.ok.injEq] at h
    subst h
    exact hacc p hp
  | cons s rest ih =>
    intro acc hacc res h p hp
    unfold importServersLoop at h
    cases hn : s.server with
    | none =>
      rw [hn] at h
      exact ih acc hacc res h p hp
    | some name =>
      rw [hn] at h
      cases ho : importOneServer s with
      | error e => rw [ho] at h; simp at h
      | ok ds =>
        rw [ho] at h
        have hacc' : ∀ q ∈ insertA acc name ds, q.2.roles = none := by
          intro q hq
          rcases mem_insertA acc name ds q hq with hq1 | hq1
          · exact hacc q hq1
          · subst hq1
            exact importOneServer_ok_roles s ds ho
        exact ih (insertA acc name ds) hacc' res h p hp

/-- C10: `import_server_roles` builds its result list but returns `None`
for every input, so every server imported from ODCS has an absent `roles`
attribute even when the source server declares a non-empty roles list. -/
theorem c10_server_roles_always_none :
    (∀ roles, import_server_roles roles = none)
    ∧ (∀ (ss : List OServer) (res : List (String × DServer)) (k : String) (ds : DServer),
        import_servers (some ss) = .ok res → (k, ds) ∈ res → ds.roles = none) := by
  refine ⟨import_server_roles_eq_none, ?_⟩
  intro ss res k ds h hmem
  exact importServersLoop_roles ss [] (by intro p hp; simp at hp) res h (k, ds) hmem

/-- A server declaring a non-empty roles list. -/
def rolesServer : OServer :=
  { server := some "n", type := some "kafka",
    roles := some [{ role := some "admin", description := some "adm" }] }

/-- The imported mapping for `rolesServer`. -/
def rolesRes : List (String × DServer) :=
  match import_servers (some [rolesServer]) with
  | .ok l => l
  | .error _ => []

/-- The imported server record for `rolesServer`. -/
def rolesDs : DServer :=
  match rolesRes with
  | p :: _ => p.2
  | [] => {}

/-- Witness for C10 at a server with a non-empty roles list. -/
theorem c10_server_roles_always_none_witness :
    import_server_roles rolesServer.roles = none ∧ rolesDs.roles = none :=
  ⟨c10_server_roles_always_none.1 rolesServer.roles,
   c10_server_roles_always_none.2 [rolesServer] rolesRes "n" rolesDs rfl (by decide)⟩

/-! ## Claim C7 -/

/-- A file system on which every path is missing. -/
def missingFs : String → Option String :=
  fun _ => none

/-- A parser that rejects every input. -/
def failParse : String → Except String SqlParsed :=
  fun _ => .error "invalid"

/-- A failing `import_sql` call with the Postgres dialect requested on a
fresh specification. -/
def c7run : DCS × Option PyErr :=
  import_sql missingFs failParse {} "missing.sql" (some [("dialect", some "postgres")])

/-- C7 counterexample: the failed import raises, yet the caller's
specification is not left unchanged — the inferred server entry was added
before the file was read. -/
theorem c7_atomicity_counterexample :
    c7run.2.isSome = true
    ∧ c7run.1.servers = [("postgres", { type := some "postgres" })]
    ∧ ({} : DCS).servers = []
    ∧ c7run.1.models = []
    ∧ decide (c7run.1 = ({} : DCS)) = false := by
  decide

/-- C7 (amended): a failed `import_sql` (missing source file or parse
error) raises a structured error and adds no model entry, but the inferred
server entry for the requested dialect has already been written into the
caller's specification before the file is read, and it survives the failed
call. -/
theorem c7_amended_failure_keeps_server_entry
    (fs : String → Option String) (parse : String → Except String SqlParsed)
    (dcs : DCS) (source : String) (args : Option (List (String × Option String)))
    (h : fs source = none
      ∨ ∃ c e, fs source = some c ∧ parse (stripDollarBraces c) = .error e) :
    (import_sql fs parse dcs source args).2.isSome = true
    ∧ (import_sql fs parse dcs source args).1.models = dcs.models
    ∧ (import_sql fs parse dcs source args).1.servers =
        (match to_server_type (to_dialect args) with
         | some st => insertA dcs.servers st { type := some st }
         | none => dcs.servers) := by
  rcases h with hnone | ⟨c, e, hc, hp⟩
  · cases hst : to_server_type (to_dialect args) with
    | none => simp [import_sql, read_file, hnone, hst]
    | some st => simp [import_sql, read_file, hnone, hst]
  · cases hst : to_server_type (to_dialect args) with
    | none => simp [import_sql, read_file, hc, hp, hst]
    | some st => simp [import_sql, read_file, hc, hp, hst]

/-- Witness for C7 at the concrete missing-file call. -/
theorem c7_amended_failure_keeps_server_entry_witness :
    (import_sql missingFs failParse {} "missing.sql"
        (some [("dialect", some "postgres")])).2.isSome = true
    ∧ (import_sql missingFs failParse {} "missing.sql"
        (some [("dialect", some "postgres")])).1.models = ({} : DCS).models
    ∧ (import_sql missingFs failParse {} "missing.sql"
        (some [("dialect", some "postgres")])).1.servers =
        (match to_server_type (to_dialect (some [("dialect", some "postgres")])) with
         | some st => insertA ({} : DCS).servers st { type := some st }
         | none => ({} : DCS).servers) :=
  c7_amended_failure_keeps_server_entry missingFs failParse {} "missing.sql"
    (some [("dialect", some "postgres")]) (Or.inl rfl)

/-! ## Claim C1: round-trip lemmas -/

theorem import_fields_eq (ps : List OSchemaProperty) (cm : List (String × String))
    (st : Option String) (h : (ps.map (fun p => p.name)).Nodup) :
    import_fields (some ps) cm st = ps.map (fun p => (p.name, mkFieldFromProp p)) := by
  unfold import_fields
  have hfold := foldl_insertA_eq (fun p : OSchemaProperty => p.name) mkFieldFromProp ps []
    h (by intro a _ p hp; simp at hp)
  simpa using hfold

theorem import_models_eq (d : Odcs)
    (h : ((d.schema_.getD []).map (fun s => s.name)).Nodup) :
    import_models d = (d.schema_.getD []).map
      (fun s => (s.name, mkModelFromSchema (get_custom_type_mappings d.customProperties) s)) := by
  unfold import_models
  have hfold := foldl_insertA_eq (fun s : OSchemaObject => s.name)
    (mkModelFromSchema (get_custom_type_mappings d.customProperties)) (d.schema_.getD []) []
    h (by intro a _ p hp; simp at hp)
  simpa using hfold

/-- The server record `import_servers` produces for a well-formed server
(in particular, one whose location is present when its type is azure). -/
def importedServer (s : OServer) : DServer :=
  if s.type = some "azure" then
    { dserverOfOdcs s with storageAccount := s.location.bind reSearchAzure }
  else dserverOfOdcs s

theorem importOneServer_ok_of_wf (s : OServer)
    (h : s.type = some "azure" → s.location.isSome = true) :
    importOneServer s = .ok (importedServer s) := by
  unfold importOneServer importedServer
  by_cases ht : s.type = some "azure"
  · rw [if_pos ht, if_pos ht]
    cases hl : s.location with
    | none => exact absurd (h ht) (by rw [hl]; decide)
    | some loc => rfl
  · rw [if_neg ht, if_neg ht]

theorem importServersLoop_eq (ss : List OServer) :
    ∀ (acc : List (String × DServer)),
    (∀ s ∈ ss, s.server.isSome = true ∧ (s.type = some "azure" → s.location.isSome = true)) →
    ((ss.map (fun s => s.server)).Nodup) →
    (∀ s ∈ ss, ∀ p ∈ acc, (some p.1 : Option String) ≠ s.server) →
    importServersLoop ss acc
      = .ok (acc ++ ss.map (fun s => (s.server.getD "", importedServer s))) := by
  induction ss with
  | nil => intro acc _ _ _; simp [importServersLoop]
  | cons s rest ih =>
    intro acc hwf hnd hfresh
    obtain ⟨hs, haz⟩ := hwf s (List.mem_cons_self s rest)
    obtain ⟨n, hn⟩ := Option.isSome_iff_exists.mp hs
    have hnd1 : s.server ∉ rest.map (fun x => x.server) :=
      (List.nodup_cons.mp (by simpa using hnd)).1
    have hnd' : (rest.map (fun x => x.server)).Nodup :=
      (List.nodup_cons.mp (by simpa using hnd)).2
    have hstep : insertA acc n (importedServer s) = acc ++ [(n, importedServer s)] := by
      apply insertA_fresh
      intro p hp hcontra
      exact hfresh s (List.mem_cons_self s rest) p hp (by rw [hn, hcontra])
    have hfresh' : ∀ b ∈ rest, ∀ p ∈ acc ++ [(n, importedServer s)],
        (some p.1 : Option String) ≠ b.server := by
      intro b hb p hp
      rcases List.mem_append.mp hp with hp1 | hp1
      · exact hfresh b (List.mem_cons_of_mem s hb) p hp1
      · have hpe : p = (n, importedServer s) := List.mem_singleton.mp hp1
        subst hpe
        intro hcontra
        apply hnd1
        rw [hn, hcontra]
        exact List.mem_map_of_mem (fun x => x.server) hb
    have hbody : importServersLoop (s :: rest) acc
        = importServersLoop rest (insertA acc n (importedServer s)) := by
      have e1 : importServersLoop (s :: rest) acc =
          match s.server with
          | none => importServersLoop rest acc
          | some name =>
            match importOneServer s with
            | .error e => .error e
            | .ok ds => importServersLoop rest (insertA acc name ds) := rfl
      rw [e1, hn, importOneServer_ok_of_wf s haz]
    rw [hbody, hstep,
      ih (acc ++ [(n, importedServer s)]) (fun b hb => hwf b (List.mem_cons_of_mem s hb))
        hnd' hfresh']
    simp [hn]

/-- Re-exporting a well-formed imported server reproduces the original ODCS
server record except for its description, which the exporter's copy list
omits and which therefore comes back absent. -/
theorem toOdcsServer_importedServer (key : String) (s : OServer)
    (hkey : s.server = some key) (htype : s.type.isSome = true) (hroles : s.roles = none) :
    toOdcsServer key (importedServer s) = { s with description := none } := by
  obtain ⟨t, ht⟩ := Option.isSome_iff_exists.mp htype
  unfold importedServer
  by_cases haz : s.type = some "azure"
  · cases s with
    | mk server type description environment format project dataset path delimiter
        endpointUrl location account database schema_ host port catalog topic
        http_path token driver roles =>
      simp only at hkey hroles ht
      subst hkey
      subst hroles
      subst ht
      rw [if_pos haz]
      rfl
  · cases s with
    | mk server type description environment format project dataset path delimiter
        endpointUrl location account database schema_ host port catalog topic
        http_path token driver roles =>
      simp only at hkey hroles ht
      subst hkey
      subst hroles
      subst ht
      rw [if_neg haz]
      rfl

/-- The projection of an ODCS schema object the round-trip claim compares:
schema name, physical type, description, and per-property (name, physical
type, description). -/
def schemaProj (s : OSchemaObject) :
    Option String × Option String × Option String
      × List (Option String × Option String × Option String) :=
  (s.name, s.physicalType, s.description,
   (s.properties.getD []).map (fun p => (p.name, p.physicalType, p.description)))

theorem schemaProj_roundtrip (cm : List (String × String)) (s : OSchemaObject)
    (h : ((s.properties.getD []).map (fun p => p.name)).Nodup) :
    schemaProj (to_odcs_schema s.name (mkModelFromSchema cm s)) = schemaProj s := by
  unfold schemaProj to_odcs_schema mkModelFromSchema
  simp only [Option.getD_some]
  refine congrArg (fun l => (s.name, s.physicalType, s.description, l)) ?_
  cases hp : s.properties with
  | none => simp [import_fields, to_properties]
  | some ps =>
    rw [hp] at h
    rw [import_fields_eq ps cm none (by simpa using h)]
    simp [to_properties, to_property, mkFieldFromProp, List.map_map]

/-- Well-formedness for the round trip: document name present; schema names
distinct and per-schema property names distinct (so the Python dicts do not
collapse entries); the server list absent or nonempty with present distinct
names, present types, no declared roles, and a present location on azure
servers (whose absence would make the importer raise). -/
def WfOdcs (d : Odcs) : Prop :=
  d.name.isSome = true
  ∧ ((d.schema_.getD []).map (fun s => s.name)).Nodup
  ∧ (∀ s ∈ d.schema_.getD [], ((s.properties.getD []).map (fun p => p.name)).Nodup)
  ∧ d.servers ≠ some []
  ∧ ((d.servers.getD []).map (fun s => s.server)).Nodup
  ∧ (∀ s ∈ d.servers.getD [], s.server.isSome = true ∧ s.roles = none
      ∧ s.type.isSome = true ∧ (s.type = some "azure" → s.location.isSome = true))

/-- The specification a well-formed import produces. -/
def importPure (d : Odcs) : DCS :=
  { id := d.id
    , info := import_info d
    , servers := (d.servers.getD []).map (fun s => (s.server.getD "", importedServer s))
    , terms := import_terms d
    , servicelevels := import_servicelevels d
    , models := import_models d
    , tags := import_tags d }

theorem import_from_odcs_ok (d : Odcs) (h : WfOdcs d) :
    import_from_odcs {} d = Except.ok (importPure d) := by
  obtain ⟨-, -, -, -, hnd, hwfs⟩ := h
  have hserv : import_servers d.servers
      = .ok ((d.servers.getD []).map (fun s => (s.server.getD "", importedServer s))) := by
    cases hsv : d.servers with
    | none => simp [import_servers]
    | some ss =>
      rw [hsv] at hnd hwfs
      simp only [Option.getD_some] at hnd hwfs
      have e1 : import_servers (some ss) = importServersLoop ss [] := rfl
      rw [e1, importServersLoop_eq ss [] (fun s hs => ⟨(hwfs s hs).1, (hwfs s hs).2.2.2⟩)
        hnd (by intro s _ p hp; simp at hp)]
      simp
  unfold import_from_odcs
  rw [hserv]
  rfl

theorem to_odcs_v3_id (dcs : DCS) : (to_odcs_v3 dcs).id = dcs.id := rfl

theorem to_odcs_v3_name (dcs : DCS) : (to_odcs_v3 dcs).name = some dcs.info.title := rfl

theorem to_odcs_v3_version (dcs : DCS) : (to_odcs_v3 dcs).version = dcs.info.version := rfl

theorem to_odcs_v3_schema (dcs : DCS) :
    (to_odcs_v3 dcs).schema_ = some (dcs.models.map (fun kv => to_odcs_schema kv.1 kv.2)) := rfl

theorem to_odcs_v3_servers (dcs : DCS) :
    (to_odcs_v3 dcs).servers =
      (if dcs.servers = [] then none
       else some (dcs.servers.map (fun kv => toOdcsServer kv.1 kv.2))) := rfl

/-- C1 (amended): importing a well-formed ODCS document and exporting it
back reproduces the document's id, name, version, schema names, property
physical types, schema and property descriptions, the `generalAvailability`
SLA value, and the server records up to their descriptions; the original
status, support channels, description purpose, retention value/unit split
and the per-server descriptions (the exporter's server copy list omits
them) are *not* reproduced (see the counterexample). -/
theorem c1_amended_roundtrip (d : Odcs) (h : WfOdcs d) :
    ∃ dcs, import_from_odcs {} d = Except.ok dcs
      ∧ (to_odcs_v3 dcs).id = d.id
      ∧ (to_odcs_v3 dcs).name = d.name
      ∧ (to_odcs_v3 dcs).version = d.version
      ∧ ((to_odcs_v3 dcs).schema_.getD []).map schemaProj
          = (d.schema_.getD []).map schemaProj
      ∧ (∀ pa, (d.slaProperties.getD []).find?
            (fun p => p.property = "generalAvailability") = some pa →
          ∃ q, ((to_odcs_v3 dcs).slaProperties.getD []).find?
              (fun p => p.property = "generalAvailability") = some q
            ∧ q.value = pa.value)
      ∧ (to_odcs_v3 dcs).servers
          = d.servers.map (fun ss => ss.map (fun s => { s with description := none })) := by
  obtain ⟨hname, hndschemas, hndprops, hne, hndservers, hwfservers⟩ := h
  refine ⟨importPure d,
    import_from_odcs_ok d ⟨hname, hndschemas, hndprops, hne, hndservers, hwfservers⟩,
    rfl, ?_, rfl, ?_, ?_, ?_⟩
  · obtain ⟨n, hn⟩ := Option.isSome_iff_exists.mp hname
    rw [to_odcs_v3_name]
    show some ((import_info d).title) = d.name
    simp [import_info, hn]
  · rw [to_odcs_v3_schema]
    simp only [Option.getD_some]
    have hm : (importPure d).models = import_models d := rfl
    rw [hm, import_models_eq d hndschemas, List.map_map, List.map_map]
    apply List.map_congr_left
    intro s hs
    exact schemaProj_roundtrip (get_custom_type_mappings d.customProperties) s (hndprops s hs)
  · intro pa hpa
    have hslv : (importPure d).servicelevels
        = some { availability := some { description := pa.value }
                 , retention :=
                   match (d.slaProperties.getD []).find? (fun p => p.property = "retention") with
                   | none => none
                   | some r => some { period := some (pyFmt r.value ++ pyFmt r.unit) } } := by
      show import_servicelevels d = _
      simp only [import_servicelevels]
      rw [hpa]
      simp
    refine ⟨{ property := "generalAvailability", value := pa.value }, ?_, rfl⟩
    simp only [to_odcs_v3, hslv]
    cases hr : (d.slaProperties.getD []).find? (fun p => p.property = "retention") with
    | none => simp [hr, List.find?]
    | some r => simp [hr, List.find?]
  · rw [to_odcs_v3_servers]
    cases hsv : d.servers with
    | none =>
      have hemp : (importPure d).servers = [] := by simp [importPure, hsv]
      rw [hemp]
      simp
    | some ss =>
      have hss : ss ≠ [] := fun he => hne (by rw [hsv, he])
      rw [hsv] at hndservers hwfservers
      simp only [Option.getD_some] at hndservers hwfservers
      have hsrv : (importPure d).servers
          = ss.map (fun s => (s.server.getD "", importedServer s)) := by
        simp [importPure, hsv]
      rw [hsrv]
      rw [if_neg (by simpa using hss)]
      rw [List.map_map]
      rw [Option.map_some']
      refine congrArg some ?_
      have hcongr : ∀ s ∈ ss,
          ((fun kv : String × DServer => toOdcsServer kv.1 kv.2) ∘
            (fun s : OServer => (s.server.getD "", importedServer s))) s
            = (fun s : OServer => { s with description := none }) s := by
        intro s hs
        obtain ⟨hsome, hroles, htype, _⟩ := hwfservers s hs
        obtain ⟨n, hn⟩ := Option.isSome_iff_exists.mp hsome
        show toOdcsServer (s.server.getD "") (importedServer s)
          = { s with description := none }
        conv_lhs => rw [hn]
        exact toOdcsServer_importedServer n s hn htype hroles
      rw [List.map_congr_left hcongr]

/-- A well-formed document exercising the amended round trip. -/
def roundtripProp : OSchemaProperty :=
  { name := some "c", physicalType := some "text", description := some "col" }

def roundtripSchema : OSchemaObject :=
  { name := some "t", physicalType := some "table", description := some "tbl",
    properties := some [roundtripProp] }

def roundtripServer : OServer :=
  { server := some "prod", type := some "postgres", host := some "h" }

def roundtripDoc : Odcs :=
  { id := some "contract-1"
    , name := some "orders"
    , version := some "1.0.0"
    , schema_ := some [roundtripSchema]
    , slaProperties := some [{ property := "generalAvailability", value := some "24x7" }]
    , servers := some [roundtripServer] }

/-- Witness for C1 at the concrete well-formed document. -/
theorem c1_amended_roundtrip_witness :
    ∃ dcs, import_from_odcs {} roundtripDoc = Except.ok dcs
      ∧ (to_odcs_v3 dcs).id = roundtripDoc.id
      ∧ (to_odcs_v3 dcs).name = roundtripDoc.name
      ∧ (to_odcs_v3 dcs).version = roundtripDoc.version
      ∧ ((to_odcs_v3 dcs).schema_.getD []).map schemaProj
          = (roundtripDoc.schema_.getD []).map schemaProj
      ∧ (∀ pa, (roundtripDoc.slaProperties.getD []).find?
            (fun p => p.property = "generalAvailability") = some pa →
          ∃ q, ((to_odcs_v3 dcs).slaProperties.getD []).find?
              (fun p => p.property = "generalAvailability") = some q
            ∧ q.value = pa.value)
      ∧ (to_odcs_v3 dcs).servers
          = roundtripDoc.servers.map (fun ss => ss.map (fun s => { s with description := none })) :=
  c1_amended_roundtrip roundtripDoc (by unfold WfOdcs; decide)

/-- A server carrying a description, which the exporter's copy list drops. -/
def statusServer : OServer :=
  { server := some "srv", type := some "kafka", description := some "important" }

/-- A document on which the round trip as claimed fails: status, support
channel, retention SLA, description purpose, and server description. -/
def statusDoc : Odcs :=
  { name := some "orders"
    , version := some "1.0.0"
    , status := some "active"
    , description := some { purpose := some "p", usage := some "u" }
    , support := some [{ channel := "email", url := "mailto:a@b.c" }]
    , slaProperties := some [{ property := "retention", value := some "3", unit := some "y" }]
    , servers := some [statusServer] }

/-- The re-exported document for `statusDoc`. -/
def statusDocExport : Odcs :=
  match import_from_odcs {} statusDoc with
  | .ok dcs => to_odcs_v3 dcs
  | .error _ => {}

/-- C1 counterexample: the import succeeds, but the re-exported document
disagrees with the original on status (always `draft`: status is never
imported), on support channels (never imported), on the retention SLA
(value and unit fused into one string), on the description purpose
(dropped because terms carry no description), and on the server
description (the exporter's server copy list omits it). -/
theorem c1_roundtrip_counterexample :
    (import_from_odcs {} statusDoc).isOk = true
    ∧ statusDocExport.status = some "draft"
    ∧ statusDoc.status = some "active"
    ∧ decide (statusDocExport.status = statusDoc.status) = false
    ∧ statusDocExport.support = none
    ∧ statusDoc.support = some [{ channel := "email", url := "mailto:a@b.c" }]
    ∧ statusDocExport.slaProperties = some [{ property := "retention", value := some "3y" }]
    ∧ statusDoc.slaProperties = some [{ property := "retention", value := some "3", unit := some "y" }]
    ∧ statusDocExport.description = some { usage := some "u" }
    ∧ statusDoc.description = some { purpose := some "p", usage := some "u" }
    ∧ statusDocExport.servers = some [{ server := some "srv", type := some "kafka" }]
    ∧ statusDoc.servers = some [statusServer]
    ∧ statusServer.description = some "important"
    ∧ decide (statusDocExport.servers = statusDoc.servers) = false := by
  decide
